import Mathlib

/-!
Verification of the pelios-webapp front-end against its design document.

The development shallowly embeds the repository's route handlers and client
helpers as pure Lean functions:

* `formatClock`, `formatDuration`, `windowAnalysed` — time rendering helpers
  of `src/app/projects/page.tsx`;
* `getYouTubeId`, `getYouTubeThumb` — YouTube id extraction of the same file
  (the `URL` constructor of the platform is modelled by its result, an
  optional parsed `URLParts`; a parse failure is the `none` case, which the
  source maps to `null` via `try/catch`);
* `projectsGET` — the data proxy handler `src/app/api/projects/route.ts`
  (the platform `fetch` is modelled by an oracle from the request URL to
  either a thrown error message or an `UpstreamResponse`);
* `tokenPOST` — the token-exchange handler `src/app/api/auth/token/route.ts`
  (`JSON.parse` is modelled by an oracle `String → Option JsonValue`);
* `logoutPOST` — the logout handler `src/app/api/auth/logout/route.ts`.

JavaScript truthiness of the optional strings and JSON values the handlers
branch on is embedded explicitly (`strTruthy`, `jsTruthy`).
-/

namespace Pelios

/-! ## JSON values and JavaScript coercions -/

/-- A JSON value, the result of `JSON.parse` and the payload of
`NextResponse.json`. -/
inductive JsonValue where
  | null
  | bool (b : Bool)
  | num (n : Int)
  | str (s : String)
  | arr (elems : List JsonValue)
  | obj (fields : List (String × JsonValue))

/-- Property access `x?.k`: a lookup on a parsed object; on `null` or any
non-object JSON value the access yields `undefined`, i.e. `none`. -/
def getField : JsonValue → String → Option JsonValue
  | .obj fields, k => (fields.find? (fun p => p.1 = k)).map Prod.snd
  | _, _ => none

/-- JavaScript truthiness of a possibly-undefined JSON value: `undefined`,
`null`, `false`, `0` and `""` are falsy, everything else is truthy. -/
def jsTruthy : Option JsonValue → Bool
  | none => false
  | some .null => false
  | some (.bool b) => b
  | some (.num n) => n != 0
  | some (.str s) => s != ""
  | some (.arr _) => true
  | some (.obj _) => true

/-- JavaScript truthiness of a possibly-undefined string (environment
variables and cookie values): `undefined` and `""` are falsy. -/
def strTruthy : Option String → Bool
  | none => false
  | some s => s != ""

/-- The nullish-coalescing operator `a ?? b` on possibly-undefined JSON
values: `b` when `a` is `undefined` or `null`, `a` otherwise. -/
def jsCoalesce (a b : Option JsonValue) : Option JsonValue :=
  match a with
  | none => b
  | some .null => b
  | some v => some v

/-- JavaScript `String(x)` on a possibly-undefined JSON value, used when a
JSON value is written as a cookie value.  Scalar cases follow the platform;
the array case (a comma join of the elements) is collapsed to the empty
string, which no claim inspects. -/
def jsStringU : Option JsonValue → String
  | none => "undefined"
  | some .null => "null"
  | some (.bool b) => if b then "true" else "false"
  | some (.num n) => toString n
  | some (.str s) => s
  | some (.arr _) => ""
  | some (.obj _) => "[object Object]"

/-! ## Time formatting (src/app/projects/page.tsx, lines 45-64) -/

/-- JavaScript `String(n).padStart(2, "0")` for the minute and second fields. -/
def pad2 (n : Nat) : String :=
  let t := toString n
  if t.length < 2 then "0" ++ t else t

/-- The `formatClock` helper: seconds to `H:MM:SS` when at least an hour, `M:SS`
otherwise; the input is clamped below at `0` (`Math.max(0, ...)`). -/
def formatClock (totalSeconds : Int) : String :=
  let s : Nat := (max 0 totalSeconds).toNat
  let h := s / 3600
  let m := (s % 3600) / 60
  let sec := s % 60
  if h > 0 then toString h ++ ":" ++ pad2 m ++ ":" ++ pad2 sec
  else toString m ++ ":" ++ pad2 sec

/-- The `formatDuration` helper: renders the length of the `[timeFrom, timeTo]` window,
clamping a negative difference to `0`. -/
def formatDuration (timeFrom timeTo : Int) : String :=
  formatClock (max 0 (timeTo - timeFrom))

/-- The `windowAnalysed` helper: renders the absolute window endpoints. -/
def windowAnalysed (timeFrom timeTo : Int) : String :=
  formatClock timeFrom ++ " – " ++ formatClock timeTo

/-! ## YouTube id extraction (src/app/projects/page.tsx, lines 66-91) -/

/-- Whether `needle` occurs as a prefix of the list. -/
def isPrefixCharsB : List Char → List Char → Bool
  | [], _ => true
  | _ :: _, [] => false
  | a :: as, b :: bs => a == b && isPrefixCharsB as bs

/-- Whether `needle` occurs as a contiguous substring of the list. -/
def containsSubChars (needle : List Char) : List Char → Bool
  | [] => isPrefixCharsB needle []
  | c :: cs => isPrefixCharsB needle (c :: cs) || containsSubChars needle cs

/-- JavaScript `haystack.includes(needle)`. -/
def containsSub (needle haystack : String) : Bool :=
  containsSubChars needle.data haystack.data

/-- JavaScript `s.replace(pat, rep)`: replaces the first occurrence only. -/
def replaceFirstChars (pat rep : List Char) : List Char → List Char
  | [] => []
  | c :: cs =>
    if isPrefixCharsB pat (c :: cs) then rep ++ (c :: cs).drop pat.length
    else c :: replaceFirstChars pat rep cs

/-- JavaScript `s.replace(pat, rep)` on strings. -/
def replaceFirst (s pat rep : String) : String :=
  String.mk (replaceFirstChars pat.data rep.data s.data)

/-- The outcome of the platform's `new URL(url)`: hostname, pathname and the
decoded search parameters in order. -/
structure URLParts where
  hostname : String
  pathname : String
  searchParams : List (String × String)

/-- JavaScript `u.searchParams.get(k)`: the first value bound to `k`, or `null`. -/
def searchParamsGet (params : List (String × String)) (k : String) : Option String :=
  (params.find? (fun p => p.1 = k)).map Prod.snd

/-- JavaScript `s.split(sep)` for a one-character separator, on character
lists: `""` splits to `[""]`, separators delimit possibly-empty fields. -/
def splitCharsOn (sep : Char) : List Char → List (List Char)
  | [] => [[]]
  | c :: cs =>
    if c == sep then [] :: splitCharsOn sep cs
    else
      match splitCharsOn sep cs with
      | [] => [[c]]
      | h :: t => (c :: h) :: t

/-- JavaScript `u.pathname.split("/").filter(Boolean)`: the non-empty path segments. -/
def pathParts (pathname : String) : List String :=
  ((splitCharsOn '/' pathname.data).map String.mk).filter (fun s => s != "")

/-- The `shorts` branch: `parts.indexOf("shorts")` followed by a truthiness
check of the next segment. -/
def shortsLookup (u : URLParts) : Option String :=
  match (pathParts u.pathname).findIdx? (fun s => s = "shorts") with
  | some i =>
    match (pathParts u.pathname).get? (i + 1) with
    | some nxt => if nxt != "" then some nxt else none
    | none => none
  | none => none

/-- The `getYouTubeId` extractor: the argument is the outcome of `new URL(url)` (`none`
when the constructor threw, which the source's `catch` maps to `null`). -/
def getYouTubeId (parsed : Option URLParts) : Option String :=
  match parsed with
  | none => none
  | some u =>
    if containsSub "youtu.be" u.hostname then
      if replaceFirst u.pathname "/" "" != "" then some (replaceFirst u.pathname "/" "")
      else none
    else
      match searchParamsGet u.searchParams "v" with
      | some v => if v != "" then some v else shortsLookup u
      | none => shortsLookup u

/-- The `getYouTubeThumb` helper: a thumbnail URL exactly when an id was extracted. -/
def getYouTubeThumb (parsed : Option URLParts) : Option String :=
  match getYouTubeId parsed with
  | none => none
  | some id => some ("https://i.ytimg.com/vi/" ++ id ++ "/hqdefault.jpg")

/-! ## HTTP embedding shared by the route handlers -/

/-- A resolved platform `fetch` response: status, body text (`res.text()`)
and the `content-type` header when present. -/
structure UpstreamResponse where
  status : Nat
  body : String
  contentType : Option String

/-- JavaScript `res.ok`: status in the 2xx range. -/
def upstreamOk (r : UpstreamResponse) : Bool :=
  200 ≤ r.status && r.status ≤ 299

/-- A `Set-Cookie` issued through `response.cookies.set` with the option
fields the handlers use. -/
structure SetCookie where
  name : String
  value : String
  httpOnly : Bool
  secure : Bool
  sameSite : String
  path : String
  maxAge : Option Nat

/-- A response body: either a JSON payload (`NextResponse.json`) or raw
relayed text (`new NextResponse(text, ...)`). -/
inductive Body where
  | json (v : JsonValue)
  | text (s : String)

/-- The observable response of a route handler. -/
structure HandlerResponse where
  status : Nat
  body : Body
  cookies : List SetCookie
  contentType : Option String

/-- A `NextResponse.json(v, { status })` response: no cookies, JSON body. -/
def jsonResponse (status : Nat) (v : JsonValue) : HandlerResponse :=
  { status := status, body := .json v, cookies := [],
    contentType := some "application/json" }

/-- An outbound `fetch` issued by a handler, recording the request URL and
the `Authorization` header when one is attached. -/
structure FetchCall where
  url : String
  authorization : Option String

/-! ## Data proxy handler (src/app/api/projects/route.ts) -/

/-- JavaScript `baseUrl.replace(/\/+$/, "")`: strips every trailing slash. -/
def stripTrailingSlashes (s : String) : String :=
  String.mk ((s.data.reverse.dropWhile (fun c => c == '/')).reverse)

/-- The upstream URL the proxy targets:
`{apiBase}/api/Pelios/GetSources`. -/
def projectsEndpoint (baseUrl : String) : String :=
  stripTrailingSlashes baseUrl ++ "/api/Pelios/GetSources"

/-- The handler for `GET /api/projects`.  `baseUrl` is `process.env.NEXT_PUBLIC_API_BASE_URL`,
`tokenCookie` is `req.cookies.get("pelios_token")?.value`, and `upstream` is
the platform `fetch` as an oracle from the request URL to either a thrown
error message or a resolved response.  Returns the handler's response
together with the list of outbound fetches it performed. -/
def projectsGET (baseUrl : Option String) (tokenCookie : Option String)
    (upstream : String → Except String UpstreamResponse) :
    HandlerResponse × List FetchCall :=
  if strTruthy baseUrl = false then
    (jsonResponse 500 (.obj [("error", .str "Missing NEXT_PUBLIC_API_BASE_URL")]), [])
  else if strTruthy tokenCookie = false then
    (jsonResponse 401 (.obj [("error", .str "Not authenticated (missing pelios_token cookie)")]), [])
  else
    let token := tokenCookie.getD ""
    let url := projectsEndpoint (baseUrl.getD "")
    let call : FetchCall := { url := url, authorization := some ("Bearer " ++ token) }
    match upstream url with
    | .ok r =>
      ({ status := r.status, body := .text r.body, cookies := [],
         contentType := some (r.contentType.getD "application/json") }, [call])
    | .error e =>
      (jsonResponse 502 (.obj [("error", .str "Failed to reach Pelios API"),
                               ("detail", .str e),
                               ("endpoint", .str url)]), [call])

/-! ## Token exchange handler (src/app/api/auth/token/route.ts) -/

/-- The handler for `POST /api/auth/token`.  `reqBody` is the parsed request JSON
(`await req.json()`), `parse` models `JSON.parse` on the upstream body text,
`isProd` is `process.env.NODE_ENV === "production"`, and `upstream` is the
resolved response of the single outbound fetch (the source wraps that fetch
in no `try`, so a network throw escapes the handler and is out of scope). -/
def tokenPOST (baseUrl : Option String) (reqBody : JsonValue)
    (parse : String → Option JsonValue) (isProd : Bool)
    (upstream : UpstreamResponse) : HandlerResponse :=
  if strTruthy baseUrl = false then
    jsonResponse 500 (.obj [("error", .str "Missing NEXT_PUBLIC_API_BASE_URL")])
  else if upstreamOk upstream = false then
    { status := upstream.status, body := .text upstream.body, cookies := [],
      contentType := some (upstream.contentType.getD "application/json") }
  else
    match parse upstream.body with
    | none =>
      jsonResponse 502 (.obj [("error", .str "Auth server returned non-JSON response")])
    | some data =>
      if jsTruthy (getField data "access_Token") = false then
        jsonResponse 502 (.obj [("error", .str "Auth server did not return access_Token")])
      else
        { status := 200,
          body := .json (.obj (("ok", .bool true) ::
            (match jsCoalesce (getField data "userName") (getField reqBody "userName") with
             | none => []
             | some v => [("userName", v)]))),
          cookies :=
            [ { name := "pelios_token", value := jsStringU (getField data "access_Token"),
                httpOnly := true, secure := isProd, sameSite := "lax",
                path := "/", maxAge := none },
              { name := "pelios_user",
                value := jsStringU (jsCoalesce (getField data "userName")
                  (getField reqBody "userName")),
                httpOnly := false, secure := isProd, sameSite := "lax",
                path := "/", maxAge := some (60 * 60 * 24 * 30) } ],
          contentType := some "application/json" }

/-! ## Logout handler (src/app/api/auth/logout/route.ts) -/

/-- The handler for `POST /api/auth/logout`: reads nothing but `NODE_ENV`, always answers
`{ ok: true }` and overwrites both cookies with the empty value and
`maxAge: 0`. -/
def logoutPOST (isProd : Bool) : HandlerResponse :=
  { status := 200,
    body := .json (.obj [("ok", .bool true)]),
    cookies :=
      [ { name := "pelios_token", value := "", httpOnly := true, secure := isProd,
          sameSite := "lax", path := "/", maxAge := some 0 },
        { name := "pelios_user", value := "", httpOnly := false, secure := isProd,
          sameSite := "lax", path := "/", maxAge := some 0 } ],
    contentType := some "application/json" }

/-! ## Helper lemmas -/

/-- The `shortsLookup` helper never yields the empty string. -/
theorem shortsLookup_cases (u : URLParts) :
    shortsLookup u = none ∨ ∃ s, shortsLookup u = some s ∧ s ≠ "" := by
  unfold shortsLookup
  split
  · split
    · split
      · rename_i nxt _ hne
        exact Or.inr ⟨nxt, rfl, by simpa using hne⟩
      · exact Or.inl rfl
    · exact Or.inl rfl
  · exact Or.inl rfl

/-! ## Claim theorems -/

/-- C7: duration formatting renders `timeFrom=3600, timeTo=3686` as `"1:26"`
and `timeFrom=0, timeTo=3600` as `"1:00:00"`. -/
theorem claim_C7_duration_examples :
    formatDuration 3600 3686 = "1:26" ∧ formatDuration 0 3600 = "1:00:00" := by
  exact ⟨by decide, by decide⟩

/-- C8: whenever `timeTo < timeFrom`, the duration formatter clamps the
negative difference and renders the same string as a zero-length window,
namely `"0:00"`. -/
theorem claim_C8_negative_clamped (timeFrom timeTo : Int) (h : timeTo < timeFrom) :
    formatDuration timeFrom timeTo = "0:00" ∧ formatDuration 0 0 = "0:00" := by
  constructor
  · unfold formatDuration
    have h0 : max 0 (timeTo - timeFrom) = 0 := max_eq_left (by omega)
    rw [h0]
    decide
  · decide

/-- Witness for C8 at the concrete window `[5, 3]`. -/
theorem claim_C8_witness :
    (3 : Int) < 5 ∧ formatDuration 5 3 = "0:00" ∧ formatDuration 0 0 = "0:00" :=
  ⟨by decide, claim_C8_negative_clamped 5 3 (by decide)⟩

/-- C10: id extraction is total — a URL-parse failure is mapped to `null`,
and every extracted id is a non-empty string. -/
theorem claim_C10_total_nonempty :
    getYouTubeId none = none ∧
    ∀ parsed : Option URLParts,
      getYouTubeId parsed = none ∨ ∃ s, getYouTubeId parsed = some s ∧ s ≠ "" := by
  refine ⟨rfl, ?_⟩
  intro parsed
  cases parsed with
  | none => exact Or.inl rfl
  | some u =>
    simp only [getYouTubeId]
    split
    · split
      · rename_i hne
        exact Or.inr ⟨_, rfl, by simpa using hne⟩
      · exact Or.inl rfl
    · split
      · rename_i v hv2
        split
        · rename_i hvne
          exact Or.inr ⟨v, rfl, by simpa using hvne⟩
        · exact shortsLookup_cases u
      · exact shortsLookup_cases u

/-- C9 counterexample: `https://example.com/watch?v=abc123` is not a YouTube
URL — its hostname contains neither `youtube` nor `youtu.be` — yet id
extraction yields `"abc123"` and a thumbnail URL is produced, because the
code reads the `v` query parameter of every URL without any hostname
check. -/
theorem claim_C9_counterexample :
    containsSub "youtube" "example.com" = false ∧
    containsSub "youtu.be" "example.com" = false ∧
    getYouTubeId (some ⟨"example.com", "/watch", [("v", "abc123")]⟩) = some "abc123" ∧
    getYouTubeThumb (some ⟨"example.com", "/watch", [("v", "abc123")]⟩) =
      some "https://i.ytimg.com/vi/abc123/hqdefault.jpg" := by
  exact ⟨by decide, by decide, rfl, rfl⟩

/-- C9 (amended): a YouTube watch URL with `watch?v=abc123` yields
`"abc123"` and a shorts URL `/shorts/xyz789` yields `"xyz789"`; a URL whose
hostname does not contain `youtu.be`, whose query carries no non-empty `v`
parameter and whose path has no `shorts` segment followed by another
segment yields no id and no thumbnail.  (The extractor never checks for the
`youtube.com` hostname, so a non-YouTube URL with a `v` parameter or a
`shorts` path segment still yields an id and a thumbnail.) -/
theorem claim_C9_amended :
    getYouTubeId (some ⟨"www.youtube.com", "/watch", [("v", "abc123")]⟩) = some "abc123" ∧
    getYouTubeId (some ⟨"www.youtube.com", "/shorts/xyz789", []⟩) = some "xyz789" ∧
    ∀ u : URLParts,
      containsSub "youtu.be" u.hostname = false →
      strTruthy (searchParamsGet u.searchParams "v") = false →
      shortsLookup u = none →
      getYouTubeId (some u) = none ∧ getYouTubeThumb (some u) = none := by
  refine ⟨by decide, by decide, ?_⟩
  intro u hhost hv hshorts
  have hid : getYouTubeId (some u) = none := by
    simp only [getYouTubeId, hhost, Bool.false_eq_true, if_false]
    cases hv2 : searchParamsGet u.searchParams "v" with
    | none => exact hshorts
    | some v =>
      have hve : v = "" := by
        rw [hv2] at hv
        simpa [strTruthy] using hv
      subst hve
      simpa using hshorts
  refine ⟨hid, ?_⟩
  simp only [getYouTubeThumb, hid]

/-- Witness for C9 (amended) at the concrete non-YouTube URL
`https://vimeo.com/video/123`. -/
theorem claim_C9_amended_witness :
    containsSub "youtu.be" "vimeo.com" = false ∧
    strTruthy (searchParamsGet ([] : List (String × String)) "v") = false ∧
    shortsLookup ⟨"vimeo.com", "/video/123", []⟩ = none ∧
    getYouTubeId (some ⟨"vimeo.com", "/video/123", []⟩) = none ∧
    getYouTubeThumb (some ⟨"vimeo.com", "/video/123", []⟩) = none := by
  refine ⟨by decide, rfl, by decide, ?_⟩
  exact claim_C9_amended.2.2 ⟨"vimeo.com", "/video/123", []⟩ (by decide) rfl (by decide)

/-- C1: with the base URL configured and no `pelios_token` cookie, the data
proxy answers 401 with the `not authenticated` error body and performs no
outbound fetch. -/
theorem claim_C1_missing_cookie_401 (baseUrl : Option String)
    (upstream : String → Except String UpstreamResponse)
    (hb : strTruthy baseUrl = true) :
    (projectsGET baseUrl none upstream).1.status = 401 ∧
    (projectsGET baseUrl none upstream).1.body =
      .json (.obj [("error", .str "Not authenticated (missing pelios_token cookie)")]) ∧
    (projectsGET baseUrl none upstream).2 = [] := by
  unfold projectsGET
  rw [hb]
  exact ⟨rfl, rfl, rfl⟩

/-- Witness for C1 at a concrete base URL and an arbitrary upstream. -/
theorem claim_C1_witness :
    strTruthy (some "https://api.example.com") = true ∧
    (projectsGET (some "https://api.example.com") none (fun _ => .error "unused")).1.status = 401 ∧
    (projectsGET (some "https://api.example.com") none (fun _ => .error "unused")).2 = [] := by
  refine ⟨by decide, ?_, ?_⟩
  · exact (claim_C1_missing_cookie_401 (some "https://api.example.com")
      (fun _ => .error "unused") (by decide)).1
  · exact (claim_C1_missing_cookie_401 (some "https://api.example.com")
      (fun _ => .error "unused") (by decide)).2.2

/-- C2: with the base URL configured and a non-empty `pelios_token` cookie,
a thrown upstream fetch yields 502 with a structured JSON error body naming
the target endpoint, while a resolved upstream response — whatever its
status — is relayed verbatim as status and body text. -/
theorem claim_C2_network_502_and_relay (baseUrl : Option String) (t : String)
    (upstream : String → Except String UpstreamResponse)
    (hb : strTruthy baseUrl = true) (ht : t ≠ "") :
    (∀ e, upstream (projectsEndpoint (baseUrl.getD "")) = .error e →
      (projectsGET baseUrl (some t) upstream).1.status = 502 ∧
      (projectsGET baseUrl (some t) upstream).1.body =
        .json (.obj [("error", .str "Failed to reach Pelios API"),
                     ("detail", .str e),
                     ("endpoint", .str (projectsEndpoint (baseUrl.getD "")))])) ∧
    (∀ r, upstream (projectsEndpoint (baseUrl.getD "")) = .ok r →
      (projectsGET baseUrl (some t) upstream).1.status = r.status ∧
      (projectsGET baseUrl (some t) upstream).1.body = .text r.body) := by
  have hts : strTruthy (some t) = true := by simp [strTruthy, ht]
  constructor
  · intro e he
    unfold projectsGET
    rw [hb, hts]
    simp [he, jsonResponse]
  · intro r hr
    unfold projectsGET
    rw [hb, hts]
    simp [hr]

/-- Witness for C2: a concrete request whose upstream fetch throws gets the
502 body naming the endpoint. -/
theorem claim_C2_witness :
    strTruthy (some "https://api.example.com") = true ∧ "tok" ≠ "" ∧
    (projectsGET (some "https://api.example.com") (some "tok")
        (fun _ => .error "ECONNREFUSED")).1.status = 502 ∧
    (projectsGET (some "https://api.example.com") (some "tok")
        (fun _ => .error "ECONNREFUSED")).1.body =
      .json (.obj [("error", .str "Failed to reach Pelios API"),
                   ("detail", .str "ECONNREFUSED"),
                   ("endpoint", .str "https://api.example.com/api/Pelios/GetSources")]) := by
  have h := (claim_C2_network_502_and_relay (some "https://api.example.com") "tok"
      (fun _ => .error "ECONNREFUSED") (by decide) (by decide)).1 "ECONNREFUSED" rfl
  refine ⟨by decide, by decide, h.1, ?_⟩
  have he : projectsEndpoint ((some "https://api.example.com").getD "") =
      "https://api.example.com/api/Pelios/GetSources" := by decide
  rw [← he]
  exact h.2

/-- C3 counterexample: the logout handler never reads
`NEXT_PUBLIC_API_BASE_URL` (its embedding takes only the production flag),
so with the variable unset it still succeeds with `{ ok: true }` rather
than failing with a 500 missing-configuration error. -/
theorem claim_C3_counterexample :
    (logoutPOST false).status = 200 ∧
    (logoutPOST false).status ≠ 500 ∧
    (logoutPOST false).body = .json (.obj [("ok", .bool true)]) := by
  exact ⟨rfl, by decide, rfl⟩

/-- C3 (amended): when `NEXT_PUBLIC_API_BASE_URL` is unset (or empty), the
token-exchange and data-proxy handlers fail with a 500
`missing configuration` error; the logout handler does not read the
variable and succeeds with `{ ok: true }` regardless. -/
theorem claim_C3_amended (baseUrl : Option String) (hb : strTruthy baseUrl = false) :
    (∀ reqBody parse isProd upstream,
      (tokenPOST baseUrl reqBody parse isProd upstream).status = 500 ∧
      (tokenPOST baseUrl reqBody parse isProd upstream).body =
        .json (.obj [("error", .str "Missing NEXT_PUBLIC_API_BASE_URL")])) ∧
    (∀ tokenCookie upstream,
      (projectsGET baseUrl tokenCookie upstream).1.status = 500 ∧
      (projectsGET baseUrl tokenCookie upstream).1.body =
        .json (.obj [("error", .str "Missing NEXT_PUBLIC_API_BASE_URL")]) ∧
      (projectsGET baseUrl tokenCookie upstream).2 = []) ∧
    (∀ isProd, (logoutPOST isProd).status = 200 ∧
      (logoutPOST isProd).body = .json (.obj [("ok", .bool true)])) := by
  refine ⟨?_, ?_, ?_⟩
  · intro reqBody parse isProd upstream
    unfold tokenPOST
    rw [hb]
    exact ⟨rfl, rfl⟩
  · intro tokenCookie upstream
    unfold projectsGET
    rw [hb]
    exact ⟨rfl, rfl, rfl⟩
  · intro isProd
    exact ⟨rfl, rfl⟩

/-- Witness for C3 (amended) with the variable absent. -/
theorem claim_C3_amended_witness :
    strTruthy (none : Option String) = false ∧
    (tokenPOST none .null (fun _ => none) false ⟨200, "", none⟩).status = 500 ∧
    (projectsGET none none (fun _ => .error "unused")).1.status = 500 ∧
    (logoutPOST false).status = 200 := by
  have h := claim_C3_amended none rfl
  exact ⟨rfl, (h.1 .null (fun _ => none) false ⟨200, "", none⟩).1,
    (h.2.1 none (fun _ => .error "unused")).1, (h.2.2 false).1⟩

/-- C4: on a 2xx upstream token response whose body does not parse as JSON,
or parses to a value without the `access_Token` field, the handler answers
502 with a JSON error body and sets no cookie. -/
theorem claim_C4_bad_upstream_json_502 (baseUrl : Option String) (reqBody : JsonValue)
    (parse : String → Option JsonValue) (isProd : Bool) (upstream : UpstreamResponse)
    (hb : strTruthy baseUrl = true) (hok : upstreamOk upstream = true)
    (hbad : parse upstream.body = none ∨
      ∃ d, parse upstream.body = some d ∧ getField d "access_Token" = none) :
    (tokenPOST baseUrl reqBody parse isProd upstream).status = 502 ∧
    (∃ msg, (tokenPOST baseUrl reqBody parse isProd upstream).body =
      .json (.obj [("error", .str msg)])) ∧
    (tokenPOST baseUrl reqBody parse isProd upstream).cookies = [] := by
  unfold tokenPOST
  rcases hbad with hnone | ⟨d, hd, hfield⟩
  · simp [hb, hok, hnone, jsonResponse]
  · simp [hb, hok, hd, hfield, jsTruthy, jsonResponse]

/-- Witness for C4: a 200 upstream answer whose body is not JSON. -/
theorem claim_C4_witness :
    strTruthy (some "https://api.example.com") = true ∧
    upstreamOk ⟨200, "<html>oops</html>", none⟩ = true ∧
    (tokenPOST (some "https://api.example.com") .null (fun _ => none) false
        ⟨200, "<html>oops</html>", none⟩).status = 502 ∧
    (tokenPOST (some "https://api.example.com") .null (fun _ => none) false
        ⟨200, "<html>oops</html>", none⟩).cookies = [] := by
  have h := claim_C4_bad_upstream_json_502 (some "https://api.example.com") .null
    (fun _ => none) false ⟨200, "<html>oops</html>", none⟩ (by decide) (by decide)
    (Or.inl rfl)
  exact ⟨by decide, by decide, h.1, h.2.2⟩

/-- C5: a successful exchange — 2xx upstream, JSON body with a truthy
`access_Token` — sets exactly two cookies: `pelios_token`, HttpOnly, lax,
path `/`, secure exactly in production, with no expiry; and `pelios_user`,
not HttpOnly, with a 30-day max age. -/
theorem claim_C5_success_cookies (baseUrl : Option String) (reqBody : JsonValue)
    (parse : String → Option JsonValue) (isProd : Bool) (upstream : UpstreamResponse)
    (d : JsonValue) (hb : strTruthy baseUrl = true) (hok : upstreamOk upstream = true)
    (hp : parse upstream.body = some d)
    (htok : jsTruthy (getField d "access_Token") = true) :
    ∃ tokenValue userValue,
      (tokenPOST baseUrl reqBody parse isProd upstream).cookies =
        [⟨"pelios_token", tokenValue, true, isProd, "lax", "/", none⟩,
         ⟨"pelios_user", userValue, false, isProd, "lax", "/", some (60 * 60 * 24 * 30)⟩] := by
  unfold tokenPOST
  rw [hb, hok, hp]
  refine ⟨jsStringU (getField d "access_Token"),
    jsStringU (jsCoalesce (getField d "userName") (getField reqBody "userName")), ?_⟩
  simp [htok]

/-- Witness for C5: a concrete successful exchange. -/
theorem claim_C5_witness :
    jsTruthy (getField (.obj [("access_Token", .str "tok123"), ("userName", .str "bob")])
      "access_Token") = true ∧
    (tokenPOST (some "https://api.example.com") (.obj [("userName", .str "bob")])
        (fun _ => some (.obj [("access_Token", .str "tok123"), ("userName", .str "bob")]))
        true ⟨200, "ignored", none⟩).cookies =
      [⟨"pelios_token", "tok123", true, true, "lax", "/", none⟩,
       ⟨"pelios_user", "bob", false, true, "lax", "/", some (60 * 60 * 24 * 30)⟩] := by
  obtain ⟨tv, uv, hcookies⟩ := claim_C5_success_cookies (some "https://api.example.com")
    (.obj [("userName", .str "bob")])
    (fun _ => some (.obj [("access_Token", .str "tok123"), ("userName", .str "bob")]))
    true ⟨200, "ignored", none⟩
    (.obj [("access_Token", .str "tok123"), ("userName", .str "bob")])
    (by decide) (by decide) rfl rfl
  exact ⟨rfl, rfl⟩

/-- C6: the logout handler takes no input beyond the production flag and
always answers `{ ok: true }`, overwriting both cookies with the empty
value and `maxAge: 0`. -/
theorem claim_C6_logout_always (isProd : Bool) :
    logoutPOST isProd =
      { status := 200,
        body := .json (.obj [("ok", .bool true)]),
        cookies :=
          [⟨"pelios_token", "", true, isProd, "lax", "/", some 0⟩,
           ⟨"pelios_user", "", false, isProd, "lax", "/", some 0⟩],
        contentType := some "application/json" } := rfl

end Pelios
